import Mathlib

/-!
Shallow embedding of the snake-attack game core (src/main.py) and proofs of
the behavioural claims about it.

Modelling conventions:
- Pixel/grid coordinates are `Int` pairs; the cell size is the literal 30
  used throughout the source.
- `pygame.Rect.colliderect` is the strict-overlap test on axis-aligned
  rectangles.
- Configuration values come from `config.json`, which is not part of the
  source tree; they are modelled by an abstract `Config` record whose field
  names follow the spec's configuration section.
- `random.randrange` draws are modelled by an explicit draw stream
  `Nat → Cell` (one (x, y) pair per loop iteration); the membership
  constraint of a draw (`candidateCell`) captures exactly which values
  `randrange(30, width - 60, 30)` × `randrange(30, height - 60, 30)` can
  produce.  The unbounded `while True` retry loop of `_spawn_target` is
  given explicit fuel.  In `Game.update` / `Game.reset_game` the spawner's
  *results* are abstracted by the same stream (one fresh cell per spawn),
  since the claims about those functions do not depend on which cell is
  returned.
- The high-score file `highscore.txt` is modelled by a `stored_high` field
  of the game state; reading it at startup is modelled by
  `load_high_score` over an abstract file-read outcome.
- Rendering, audio and asset loading are out of scope per the spec and are
  not modelled.
-/

namespace SnakeAttack

/-- A pixel position; grid cells are the multiples of 30. -/
abbrev Cell := Int × Int

/-- An axis-aligned rectangle, as `pygame.Rect(x, y, w, h)`. -/
structure Rect where
  x : Int
  y : Int
  w : Int
  h : Int
  deriving DecidableEq, Repr

/-- Strict-overlap test of `pygame.Rect.colliderect`. -/
def Rect.colliderect (a b : Rect) : Bool :=
  decide (a.x < b.x + b.w) && decide (a.x + a.w > b.x) &&
  decide (a.y < b.y + b.h) && decide (a.y + a.h > b.y)

/-- Modelled from the spec: the configuration values loaded from
`config.json` (the file itself is not in the source tree).  Field names
follow `CONFIG['window']`, `CONFIG['snake']` and `CONFIG['scoring']` as
used by `src/main.py`. -/
structure Config where
  width : Int
  height : Int
  initial_length : Nat
  initial_speed : Int
  targets_before_speedup : Nat
  max_speed : Int
  speed_increase_amount : Int
  target_1_points : Int
  target_2_points : Int
  deriving DecidableEq, Repr

/-- Game states, from the `GameState` enum of `src/main.py`. -/
inductive GameState where
  | MENU
  | PLAYING
  | GAME_OVER
  deriving DecidableEq, Repr

/-- The snake entity (`Snake.__init__` of `src/main.py`), image handling
omitted. -/
structure Snake where
  positions : List Cell
  direction : Cell
  length : Nat
  speed : Int
  move_timer : Int
  facing : Cell
  targets_collected : Nat
  deriving DecidableEq, Repr

/-- Constructor `Snake.__init__(x, y)`: head at `(x, y)`, stationary,
body cells extending to the left (`positions.append((x - (i+1)*30, y))`
for `i in range(length - 1)`). -/
def Snake.init (cfg : Config) (x y : Int) : Snake :=
  { positions := (x, y) ::
      (List.range (cfg.initial_length - 1)).map (fun (i : Nat) => (x - ((i : Int) + 1) * 30, y))
    direction := (0, 0)
    length := cfg.initial_length
    speed := cfg.initial_speed
    move_timer := 0
    facing := (1, 0)
    targets_collected := 0 }

/-- Method `Snake.move`: insert `(x + dx*30, y + dy*30)` at the front; if
the list is now longer than `length`, pop the last cell.  `positions` is
nonempty in every reachable state; the `headD` default only totalises the
Lean function. -/
def Snake.move (s : Snake) : Snake :=
  let head := s.positions.headD (0, 0)
  let new_head : Cell := (head.1 + s.direction.1 * 30, head.2 + s.direction.2 * 30)
  let ps := new_head :: s.positions
  { s with positions := if ps.length > s.length then ps.dropLast else ps }

/-- Method `Snake.grow`: increment `length` and `targets_collected`, then,
if the (incremented) `targets_collected` exceeds the configured threshold
and `speed` is below the configured maximum, raise `speed` by the
configured step, clamped to the maximum. -/
def Snake.grow (cfg : Config) (s : Snake) : Snake :=
  let s := { s with length := s.length + 1, targets_collected := s.targets_collected + 1 }
  if s.targets_collected > cfg.targets_before_speedup ∧ s.speed < cfg.max_speed then
    { s with speed := min (s.speed + cfg.speed_increase_amount) cfg.max_speed }
  else
    s

/-- Method `Snake.check_collision(walls)`: the 30×30 head rectangle
overlaps some wall rectangle, or the head cell equals some non-head body
cell (`self.positions[1:]`). -/
def Snake.check_collision (s : Snake) (ws : List Rect) : Bool :=
  let head := s.positions.headD (0, 0)
  let head_rect : Rect := ⟨head.1, head.2, 30, 30⟩
  ws.any (fun w => head_rect.colliderect w) ||
    s.positions.tail.any (fun p => decide (head = p))

/-- The movement phase of `Game.update` (lines 371-377 of `src/main.py`):
if the snake has a direction, increment `move_timer` and, once it reaches
`60 // speed` (Python floor division), perform one `move` and reset the
timer. -/
def Snake.tickMove (s : Snake) : Snake :=
  if s.direction ≠ ((0 : Int), (0 : Int)) then
    let s1 := { s with move_timer := s.move_timer + 1 }
    if s1.move_timer ≥ Int.fdiv 60 s1.speed then
      { s1.move with move_timer := 0 }
    else
      s1
  else
    s

/-- A collectible target: `{'position': ..., 'type': ...}` dictionaries of
`src/main.py` (type 0 for target-1, 1 for target-2). -/
structure Target where
  position : Cell
  type : Nat
  deriving DecidableEq, Repr

/-- The four border wall rectangles built in `Game.__init__`. -/
def walls (cfg : Config) : List Rect :=
  [⟨0, 0, cfg.width, 30⟩,
   ⟨0, cfg.height - 30, cfg.width, 30⟩,
   ⟨0, 0, 30, cfg.height⟩,
   ⟨cfg.width - 30, 0, 30, cfg.height⟩]

/-- The whole game state owned by `Game`, with the durable high-score
store (`highscore.txt`) modelled by `stored_high` and the random spawner's
results abstracted by the draw stream `spawnStream` consumed at index
`spawnIdx`. -/
structure Game where
  state : GameState
  score : Int
  high_score : Int
  stored_high : Int
  snake : Snake
  targets : List Target
  spawnStream : Nat → Cell
  spawnIdx : Nat

/-- Method `Game._save_high_score`: write the in-memory `high_score` to
the durable store. -/
def Game.save_high_score (g : Game) : Game :=
  { g with stored_high := g.high_score }

/-- Method `Game._spawn_multiple_targets`: for each type in `[0, 1]`,
append three freshly spawned targets of that type (spawn results drawn
from the stream). -/
def spawnMultipleTargets (stream : Nat → Cell) (st : List Target × Nat) :
    List Target × Nat :=
  ([0, 1] : List Nat).foldl
    (fun acc ty =>
      (List.range 3).foldl
        (fun acc2 _ => (acc2.1 ++ [⟨stream acc2.2, ty⟩], acc2.2 + 1)) acc)
    st

/-- Method `Game.reset_game`: fresh snake at `((width*3)//4, height//2)`,
empty target list repopulated by `_spawn_multiple_targets`, score 0. -/
def Game.reset_game (cfg : Config) (g : Game) : Game :=
  let snake := Snake.init cfg (Int.fdiv (cfg.width * 3) 4) (Int.fdiv cfg.height 2)
  let st := spawnMultipleTargets g.spawnStream ([], g.spawnIdx)
  { g with snake := snake, targets := st.1, spawnIdx := st.2, score := 0 }

/-- Indices of the targets whose 30×30 rectangle overlaps the head
rectangle (the `for i, target in enumerate(self.targets)` loop of
`Game.update`). -/
def collectedIndices (head_rect : Rect) (targets : List Target) : List Nat :=
  (List.range targets.length).filter fun i =>
    head_rect.colliderect
      ⟨(targets.getD i ⟨(0, 0), 0⟩).position.1, (targets.getD i ⟨(0, 0), 0⟩).position.2, 30, 30⟩

/-- The `for i in reversed(collected_targets)` loop of `Game.update`:
pop index `i` from the current list and append a fresh target of the same
type, consuming one spawn draw. -/
def respawnLoop (stream : Nat → Cell) : List Nat → List Target × Nat → List Target × Nat
  | [], acc => acc
  | i :: rest, acc =>
      let ty := (acc.1.getD i ⟨(0, 0), 0⟩).type
      respawnLoop stream rest (acc.1.eraseIdx i ++ [⟨stream acc.2, ty⟩], acc.2 + 1)

/-- Method `Game.update`: in `PLAYING`, advance the clock-gated movement,
then check wall/self collision (on collision: `GAME_OVER`, and save the
high score if beaten, then return), else collect every target overlapping
the head (growing the snake and adding the type's points per collected
target) and replace the collected targets by fresh ones of the same type.
In `MENU` and `GAME_OVER` the method does nothing. -/
def Game.update (cfg : Config) (g : Game) : Game :=
  if g.state = GameState.PLAYING then
    let snake := g.snake.tickMove
    if snake.check_collision (walls cfg) then
      let g1 := { g with snake := snake, state := GameState.GAME_OVER }
      if g1.score > g1.high_score then
        Game.save_high_score { g1 with high_score := g1.score }
      else
        g1
    else
      let head := snake.positions.headD (0, 0)
      let head_rect : Rect := ⟨head.1, head.2, 30, 30⟩
      let collected := collectedIndices head_rect g.targets
      let grown := collected.foldl
        (fun (p : Snake × Int) i =>
          (Snake.grow cfg p.1,
           p.2 + if (g.targets.getD i ⟨(0, 0), 0⟩).type = 0 then
                   cfg.target_1_points
                 else
                   cfg.target_2_points))
        (snake, g.score)
      let respawned := respawnLoop g.spawnStream collected.reverse (g.targets, g.spawnIdx)
      { g with snake := grown.1, score := grown.2,
               targets := respawned.1, spawnIdx := respawned.2 }
  else
    g

/-- Keyboard keys relevant to `Game.handle_input`. -/
inductive Key where
  | K_UP
  | K_DOWN
  | K_LEFT
  | K_RIGHT
  | K_SPACE
  deriving DecidableEq, Repr

/-- The direction requested by an arrow key. -/
def dirOfKey : Key → Option Cell
  | Key.K_UP => some (0, -1)
  | Key.K_DOWN => some (0, 1)
  | Key.K_LEFT => some (-1, 0)
  | Key.K_RIGHT => some (1, 0)
  | Key.K_SPACE => none

/-- Componentwise negation: the exact opposite of a direction. -/
def opposite (d : Cell) : Cell := (-d.1, -d.2)

/-- Processing of one `KEYDOWN` event by `Game.handle_input`: in
`PLAYING`, an arrow key sets `direction` (and `facing`) unless the current
`direction` is the exact opposite of the request; in `GAME_OVER`, space
resets the game and returns to `MENU`; anything else is ignored. -/
def Game.handle_keydown (cfg : Config) (g : Game) (k : Key) : Game :=
  if g.state = GameState.PLAYING then
    match k with
    | Key.K_UP =>
        if g.snake.direction ≠ ((0 : Int), (1 : Int)) then
          { g with snake := { g.snake with direction := (0, -1), facing := (0, -1) } }
        else g
    | Key.K_DOWN =>
        if g.snake.direction ≠ ((0 : Int), (-1 : Int)) then
          { g with snake := { g.snake with direction := (0, 1), facing := (0, 1) } }
        else g
    | Key.K_LEFT =>
        if g.snake.direction ≠ ((1 : Int), (0 : Int)) then
          { g with snake := { g.snake with direction := (-1, 0), facing := (-1, 0) } }
        else g
    | Key.K_RIGHT =>
        if g.snake.direction ≠ ((-1 : Int), (0 : Int)) then
          { g with snake := { g.snake with direction := (1, 0), facing := (1, 0) } }
        else g
    | Key.K_SPACE => g
  else if k = Key.K_SPACE ∧ g.state = GameState.GAME_OVER then
    { Game.reset_game cfg g with state := GameState.MENU }
  else
    g

/-- Membership in the value set of `random.randrange(30, width - 60, 30)`
× `random.randrange(30, height - 60, 30)`: the candidate cells of
`Game._spawn_target`. -/
def candidateCell (cfg : Config) (pos : Cell) : Bool :=
  decide (30 ≤ pos.1 ∧ pos.1 < cfg.width - 60 ∧ (pos.1 - 30) % 30 = 0 ∧
          30 ≤ pos.2 ∧ pos.2 < cfg.height - 60 ∧ (pos.2 - 30) % 30 = 0)

/-- The acceptance test of `Game._spawn_target`: the candidate is on
neither the snake body nor any existing target. -/
def validSpawn (snakePos : List Cell) (targets : List Target) (pos : Cell) : Bool :=
  decide (pos ∉ snakePos) && decide (∀ t ∈ targets, ¬ t.position = pos)

/-- Method `Game._spawn_target`: draw candidates from the stream starting
at index `n`, returning the first one passing the acceptance test; the
`while True` loop is given explicit fuel. -/
def spawn_target (snakePos : List Cell) (targets : List Target)
    (stream : Nat → Cell) : Nat → Nat → Option Cell
  | _, 0 => none
  | n, fuel + 1 =>
      let pos := stream n
      if validSpawn snakePos targets pos then some pos
      else spawn_target snakePos targets stream (n + 1) fuel

/-- Modelled from the spec: a cell of "the valid interior grid (excludes a
1-cell-wide border reserved for walls)" — a grid-aligned 30×30 cell lying
entirely inside the playfield minus the one-cell wall border.  Used to
compare the spec's description of the spawn range against the source's
`candidateCell`. -/
def specInteriorCell (cfg : Config) (pos : Cell) : Bool :=
  decide (pos.1 % 30 = 0 ∧ pos.2 % 30 = 0 ∧
          30 ≤ pos.1 ∧ pos.1 + 30 ≤ cfg.width - 30 ∧
          30 ≤ pos.2 ∧ pos.2 + 30 ≤ cfg.height - 30)

/-- Outcome of attempting to read `highscore.txt`. -/
inductive FileRead where
  | absent
  | unreadable
  | content (s : String)
  deriving DecidableEq, Repr

/-- Python exceptions relevant to `Game._load_high_score`. -/
inductive PyExc where
  | FileNotFoundError
  | OSError
  | ValueError
  deriving DecidableEq, Repr

/-- Whitespace stripped by Python's `int(str)` conversion. -/
def isPySpace (c : Char) : Bool :=
  decide (c = ' ') || decide (c = '\t') || decide (c = '\n') || decide (c = '\r')

/-- Value of a nonempty all-digit character sequence. -/
def digitsVal (l : List Char) : Option Nat :=
  if l ≠ [] ∧ l.all Char.isDigit then
    some (l.foldl (fun a c => a * 10 + (c.toNat - 48)) 0)
  else
    none

/-- Model of Python's `int(s)` on decimal strings: strip surrounding
whitespace, allow one optional sign, then require a nonempty digit string
(digit-group underscores and non-ASCII digits are not modelled). `none`
models a raised `ValueError`. -/
def pyInt (s : String) : Option Int :=
  let l := ((s.toList.dropWhile isPySpace).reverse.dropWhile isPySpace).reverse
  match l with
  | '-' :: rest => (digitsVal rest).map (fun n => -(n : Int))
  | '+' :: rest => (digitsVal rest).map (fun n => (n : Int))
  | rest => (digitsVal rest).map (fun n => (n : Int))

/-- Method `Game._load_high_score`: `open('highscore.txt')` then
`int(f.read())`, with `except FileNotFoundError: return 0` as the only
handler — an absent file yields 0, while an unreadable file (OSError from
`open`) or malformed content (ValueError from `int`) raises. -/
def load_high_score : FileRead → Except PyExc Int
  | FileRead.absent => Except.ok 0
  | FileRead.unreadable => Except.error PyExc.OSError
  | FileRead.content s =>
      match pyInt s with
      | some n => Except.ok n
      | none => Except.error PyExc.ValueError

/-- Count of targets of a given type. -/
def countType (ty : Nat) (ts : List Target) : Nat :=
  ts.countP (fun tg => decide (tg.type = ty))

/-- A concrete 600×600-window configuration used by witnesses. -/
def cfg600 : Config :=
  { width := 600, height := 600, initial_length := 3, initial_speed := 10,
    targets_before_speedup := 10, max_speed := 20, speed_increase_amount := 1,
    target_1_points := 10, target_2_points := 20 }

/-- A concrete 91×91-window configuration whose candidate grid has exactly
one cell, (30, 30); used by the spawner witnesses. -/
def cfg91 : Config :=
  { width := 91, height := 91, initial_length := 3, initial_speed := 10,
    targets_before_speedup := 10, max_speed := 20, speed_increase_amount := 1,
    target_1_points := 10, target_2_points := 20 }

/-- A draw stream that always proposes the cell (30, 30). -/
def constStream : Nat → Cell := fun _ => (30, 30)

/-- A snake one cell left of the right wall of `cfg600`, moving right and
due to move on the next tick. -/
def snakeC1 : Snake :=
  { positions := [(540, 300)], direction := (1, 0), length := 1, speed := 10,
    move_timer := 10, facing := (1, 0), targets_collected := 0 }

/-- A playing game whose snake's next move enters the right wall while a
target sits on the very cell the head moves onto. -/
def gameC1 : Game :=
  { state := GameState.PLAYING, score := 5, high_score := 0, stored_high := 0,
    snake := snakeC1, targets := [⟨(570, 300), 0⟩],
    spawnStream := fun _ => (0, 0), spawnIdx := 0 }

/-- The same game sitting in the menu. -/
def gameMenu : Game := { gameC1 with state := GameState.MENU }

/-- A colliding game ending a run of score 500 against a stored high
score of 300. -/
def game500 : Game := { gameC1 with score := 500, high_score := 300, stored_high := 300 }

/-- A colliding game ending a run of score 200 against a stored high
score of 300. -/
def game200 : Game := { gameC1 with score := 200, high_score := 300, stored_high := 300 }

/-- A single-cell snake of target length 3, used by the trimming
witnesses. -/
def snakeW : Snake :=
  { positions := [(300, 300)], direction := (1, 0), length := 3, speed := 10,
    move_timer := 0, facing := (1, 0), targets_collected := 0 }

/-! Helper lemmas about the snake operations. -/

theorem Snake.grow_positions (cfg : Config) (s : Snake) :
    (Snake.grow cfg s).positions = s.positions := by
  simp only [Snake.grow]; split <;> rfl

theorem Snake.grow_length (cfg : Config) (s : Snake) :
    (Snake.grow cfg s).length = s.length + 1 := by
  simp only [Snake.grow]; split <;> rfl

theorem Snake.grow_targets_collected (cfg : Config) (s : Snake) :
    (Snake.grow cfg s).targets_collected = s.targets_collected + 1 := by
  simp only [Snake.grow]; split <;> rfl

theorem Snake.move_length (s : Snake) : (Snake.move s).length = s.length := rfl

theorem Snake.move_positions_length (s : Snake) :
    (Snake.move s).positions.length =
      if s.positions.length + 1 > s.length then s.positions.length
      else s.positions.length + 1 := by
  simp only [Snake.move, List.length_cons]
  by_cases h : s.positions.length + 1 > s.length
  · simp [h]
  · simp [h]

theorem Snake.iterate_move_positions_length (m : Nat) :
    ∀ s : Snake, s.positions.length ≤ s.length →
      (Snake.move^[m] s).positions.length = min (s.positions.length + m) s.length := by
  induction m with
  | zero =>
      intro s h
      simp only [Function.iterate_zero_apply]
      omega
  | succ m ih =>
      intro s h
      rw [Function.iterate_succ_apply]
      have hlen : (Snake.move s).length = s.length := Snake.move_length s
      have hpos := Snake.move_positions_length s
      have hinv : (Snake.move s).positions.length ≤ (Snake.move s).length := by
        rw [hlen, hpos]; split <;> omega
      rw [ih (Snake.move s) hinv, hlen, hpos]
      split <;> omega

theorem Snake.grow_speed_mono (cfg : Config) (hstep : 0 ≤ cfg.speed_increase_amount)
    (s : Snake) : s.speed ≤ (Snake.grow cfg s).speed := by
  simp only [Snake.grow]
  split
  · rename_i h
    exact le_min (by omega) (le_of_lt h.2)
  · exact le_refl _

theorem Snake.grow_speed_cap (cfg : Config) (s : Snake) (h : s.speed ≤ cfg.max_speed) :
    (Snake.grow cfg s).speed ≤ cfg.max_speed := by
  simp only [Snake.grow]
  split
  · exact min_le_right _ _
  · exact h

theorem Snake.grow_speed_reapplied (cfg : Config) (s : Snake)
    (h1 : s.targets_collected + 1 > cfg.targets_before_speedup)
    (h2 : s.speed < cfg.max_speed) :
    (Snake.grow cfg s).speed = min (s.speed + cfg.speed_increase_amount) cfg.max_speed := by
  simp only [Snake.grow]
  rw [if_pos ⟨h1, h2⟩]

/-! Helper lemmas about direction reversal. -/

theorem eq_opposite_iff (a b : Int) (d : Cell) :
    ((a, b) = opposite d) ↔ (d.1 = -a ∧ d.2 = -b) := by
  simp only [opposite, Prod.ext_iff]
  constructor
  · rintro ⟨h1, h2⟩
    constructor <;> omega
  · rintro ⟨h1, h2⟩
    constructor <;> omega

/-! Helper lemmas about target counting and the respawn loop. -/

theorem countP_eraseIdx_add {α : Type} (p : α → Bool) :
    ∀ (l : List α) (i : Nat) (d : α), i < l.length →
      (l.eraseIdx i).countP p + (if p (l.getD i d) then 1 else 0) = l.countP p := by
  intro l
  induction l with
  | nil => intro i d h; simp at h
  | cons a t ih =>
      intro i d h
      cases i with
      | zero =>
          simp [List.countP_cons]
      | succ i =>
          simp only [List.eraseIdx_cons_succ, List.getD_cons_succ, List.countP_cons]
          have := ih i d (by simpa using h)
          omega

theorem length_eraseIdx_lt {α : Type} (l : List α) (i : Nat) (h : i < l.length) :
    (l.eraseIdx i).length = l.length - 1 := by
  rw [List.length_eraseIdx]
  simp [h]

theorem respawnLoop_counts (stream : Nat → Cell) (t : Nat) :
    ∀ (is : List Nat) (ts : List Target) (idx : Nat),
      (∀ i ∈ is, i < ts.length) →
      countType t (respawnLoop stream is (ts, idx)).1 = countType t ts ∧
      (respawnLoop stream is (ts, idx)).1.length = ts.length := by
  intro is
  induction is with
  | nil => intro ts idx _; exact ⟨rfl, rfl⟩
  | cons i rest ih =>
      intro ts idx hb
      have hi : i < ts.length := hb i (List.mem_cons_self i rest)
      simp only [respawnLoop]
      have hlen1 : (ts.eraseIdx i ++ [(⟨stream idx, (ts.getD i ⟨(0, 0), 0⟩).type⟩ : Target)]).length
          = ts.length := by
        simp [length_eraseIdx_lt ts i hi]
        omega
      have hcnt1 : countType t (ts.eraseIdx i ++ [(⟨stream idx, (ts.getD i ⟨(0, 0), 0⟩).type⟩ : Target)])
          = countType t ts := by
        have h := countP_eraseIdx_add (fun tg => decide (tg.type = t)) ts i ⟨(0, 0), 0⟩ hi
        beta_reduce at h
        simp only [countType, List.countP_append, List.countP_cons, List.countP_nil]
        omega
      have hbrest : ∀ j ∈ rest,
          j < (ts.eraseIdx i ++ [(⟨stream idx, (ts.getD i ⟨(0, 0), 0⟩).type⟩ : Target)]).length := by
        rw [hlen1]
        exact fun j hj => hb j (List.mem_cons_of_mem i hj)
      obtain ⟨hc, hl⟩ := ih (ts.eraseIdx i ++ [(⟨stream idx, (ts.getD i ⟨(0, 0), 0⟩).type⟩ : Target)])
        (idx + 1) hbrest
      exact ⟨hc.trans hcnt1, hl.trans hlen1⟩

theorem collectedIndices_lt (r : Rect) (ts : List Target) :
    ∀ i ∈ collectedIndices r ts, i < ts.length := by
  intro i hi
  have h := List.mem_filter.mp hi
  exact List.mem_range.mp h.1

/-! Helper lemmas about the spawner loop. -/

theorem spawn_target_result_aux (cfg : Config) (snakePos : List Cell)
    (targets : List Target) (stream : Nat → Cell)
    (hstream : ∀ k, candidateCell cfg (stream k) = true) :
    ∀ (fuel n : Nat) (pos : Cell),
      spawn_target snakePos targets stream n fuel = some pos →
      candidateCell cfg pos = true ∧ validSpawn snakePos targets pos = true := by
  intro fuel
  induction fuel with
  | zero => intro n pos h; simp [spawn_target] at h
  | succ fuel ih =>
      intro n pos h
      simp only [spawn_target] at h
      by_cases hv : validSpawn snakePos targets (stream n) = true
      · rw [if_pos hv] at h
        obtain rfl : stream n = pos := Option.some.inj h
        exact ⟨hstream n, hv⟩
      · rw [if_neg hv] at h
        exact ih (n + 1) pos h

theorem spawn_target_succeeds_aux (snakePos : List Cell) (targets : List Target)
    (stream : Nat → Cell) :
    ∀ (fuel n : Nat),
      (∃ k, k < fuel ∧ validSpawn snakePos targets (stream (n + k)) = true) →
      ∃ pos, spawn_target snakePos targets stream n fuel = some pos := by
  intro fuel
  induction fuel with
  | zero =>
      rintro n ⟨k, hk, _⟩
      omega
  | succ fuel ih =>
      rintro n ⟨k, hk, hv⟩
      simp only [spawn_target]
      by_cases h0 : validSpawn snakePos targets (stream n) = true
      · exact ⟨stream n, by rw [if_pos h0]⟩
      · have hk0 : k ≠ 0 := fun he => h0 (by simpa [he] using hv)
        obtain ⟨k', rfl⟩ : ∃ k', k = k' + 1 := ⟨k - 1, by omega⟩
        have harx : n + (k' + 1) = (n + 1) + k' := by omega
        rw [harx] at hv
        obtain ⟨pos, hpos⟩ := ih (n + 1) ⟨k', by omega, hv⟩
        exact ⟨pos, by rw [if_neg h0]; exact hpos⟩

/-! The claims. -/

/-- C1: in the PLAYING state, whenever the tick's movement phase leaves
the head in collision with a wall or the body, the tick resolves to
GAME_OVER and the score is unchanged — regardless of the targets, so in
particular even when the new head position overlaps a target: the
wall/self collision check strictly precedes the target-collection
check. -/
theorem collision_precedes_collection (cfg : Config) (g : Game)
    (hplay : g.state = GameState.PLAYING)
    (hcol : (Snake.tickMove g.snake).check_collision (walls cfg) = true) :
    (Game.update cfg g).state = GameState.GAME_OVER ∧
    (Game.update cfg g).score = g.score := by
  simp only [Game.update, hplay, if_true, hcol, ite_true]
  split <;> exact ⟨rfl, rfl⟩

/-- Witness for C1: a concrete colliding tick in which the new head cell
also carries a target, yet the game ends with the score untouched. -/
theorem collision_precedes_collection_witness :
    Rect.colliderect ⟨570, 300, 30, 30⟩ ⟨570, 300, 30, 30⟩ = true ∧
    (Game.update cfg600 gameC1).state = GameState.GAME_OVER ∧
    (Game.update cfg600 gameC1).score = 5 :=
  ⟨by decide,
   (collision_precedes_collection cfg600 gameC1 rfl (by decide)).1,
   (collision_precedes_collection cfg600 gameC1 rfl (by decide)).2⟩

/-- C2: in PLAYING, a directional input requesting the exact opposite of
the current direction is rejected and the game state is untouched, and
any direction actually changed by the handler is never the exact opposite
of the immediately preceding direction. -/
theorem no_reversal (cfg : Config) (g : Game) (k : Key)
    (hplay : g.state = GameState.PLAYING) :
    (dirOfKey k = some (opposite g.snake.direction) → Game.handle_keydown cfg g k = g) ∧
    ((Game.handle_keydown cfg g k).snake.direction ≠ g.snake.direction →
      (Game.handle_keydown cfg g k).snake.direction ≠ opposite g.snake.direction) := by
  constructor
  · intro hd
    cases k
    case K_UP =>
      simp only [dirOfKey, Option.some.injEq] at hd
      obtain ⟨e1, e2⟩ := (eq_opposite_iff 0 (-1) _).mp hd
      have hdir : g.snake.direction = ((0 : Int), (1 : Int)) :=
        Prod.ext_iff.mpr ⟨by omega, by omega⟩
      simp [Game.handle_keydown, hplay, hdir]
    case K_DOWN =>
      simp only [dirOfKey, Option.some.injEq] at hd
      obtain ⟨e1, e2⟩ := (eq_opposite_iff 0 1 _).mp hd
      have hdir : g.snake.direction = ((0 : Int), (-1 : Int)) :=
        Prod.ext_iff.mpr ⟨by omega, by omega⟩
      simp [Game.handle_keydown, hplay, hdir]
    case K_LEFT =>
      simp only [dirOfKey, Option.some.injEq] at hd
      obtain ⟨e1, e2⟩ := (eq_opposite_iff (-1) 0 _).mp hd
      have hdir : g.snake.direction = ((1 : Int), (0 : Int)) :=
        Prod.ext_iff.mpr ⟨by omega, by omega⟩
      simp [Game.handle_keydown, hplay, hdir]
    case K_RIGHT =>
      simp only [dirOfKey, Option.some.injEq] at hd
      obtain ⟨e1, e2⟩ := (eq_opposite_iff 1 0 _).mp hd
      have hdir : g.snake.direction = ((-1 : Int), (0 : Int)) :=
        Prod.ext_iff.mpr ⟨by omega, by omega⟩
      simp [Game.handle_keydown, hplay, hdir]
    case K_SPACE =>
      simp [dirOfKey] at hd
  · intro hch
    cases k
    case K_UP =>
      by_cases hdir : g.snake.direction = ((0 : Int), (1 : Int))
      · exact absurd (by simp [Game.handle_keydown, hplay, hdir]) hch
      · have hres : (Game.handle_keydown cfg g Key.K_UP).snake.direction
            = ((0 : Int), (-1 : Int)) := by
          simp [Game.handle_keydown, hplay, hdir]
        rw [hres]
        intro hop
        obtain ⟨e1, e2⟩ := (eq_opposite_iff 0 (-1) _).mp hop
        exact hdir (Prod.ext_iff.mpr ⟨by omega, by omega⟩)
    case K_DOWN =>
      by_cases hdir : g.snake.direction = ((0 : Int), (-1 : Int))
      · exact absurd (by simp [Game.handle_keydown, hplay, hdir]) hch
      · have hres : (Game.handle_keydown cfg g Key.K_DOWN).snake.direction
            = ((0 : Int), (1 : Int)) := by
          simp [Game.handle_keydown, hplay, hdir]
        rw [hres]
        intro hop
        obtain ⟨e1, e2⟩ := (eq_opposite_iff 0 1 _).mp hop
        exact hdir (Prod.ext_iff.mpr ⟨by omega, by omega⟩)
    case K_LEFT =>
      by_cases hdir : g.snake.direction = ((1 : Int), (0 : Int))
      · exact absurd (by simp [Game.handle_keydown, hplay, hdir]) hch
      · have hres : (Game.handle_keydown cfg g Key.K_LEFT).snake.direction
            = ((-1 : Int), (0 : Int)) := by
          simp [Game.handle_keydown, hplay, hdir]
        rw [hres]
        intro hop
        obtain ⟨e1, e2⟩ := (eq_opposite_iff (-1) 0 _).mp hop
        exact hdir (Prod.ext_iff.mpr ⟨by omega, by omega⟩)
    case K_RIGHT =>
      by_cases hdir : g.snake.direction = ((-1 : Int), (0 : Int))
      · exact absurd (by simp [Game.handle_keydown, hplay, hdir]) hch
      · have hres : (Game.handle_keydown cfg g Key.K_RIGHT).snake.direction
            = ((1 : Int), (0 : Int)) := by
          simp [Game.handle_keydown, hplay, hdir]
        rw [hres]
        intro hop
        obtain ⟨e1, e2⟩ := (eq_opposite_iff 1 0 _).mp hop
        exact hdir (Prod.ext_iff.mpr ⟨by omega, by omega⟩)
    case K_SPACE =>
      exact absurd (by simp [Game.handle_keydown, hplay]) hch

/-- Witness for C2: a snake moving right rejects a "left" request. -/
theorem no_reversal_witness :
    Game.handle_keydown cfg600 gameC1 Key.K_LEFT = gameC1 :=
  (no_reversal cfg600 gameC1 Key.K_LEFT rfl).1 (by decide)

/-- C3 counterexample: with a 600×600 window, the grid cell (540, 300)
belongs to the interior grid described by the spec (and indeed overlaps
no wall rectangle), yet it lies outside the value set of the spawner's
randrange calls, so the spawn range excludes strictly more than the
1-cell-wide wall border. -/
theorem spawn_interior_cex :
    specInteriorCell cfg600 (540, 300) = true ∧
    ((walls cfg600).all fun w => ! Rect.colliderect ⟨540, 300, 30, 30⟩ w) = true ∧
    candidateCell cfg600 (540, 300) = false := by decide

/-- C3 (amended): every cell the spawner returns lies in the value set of
its randrange calls (grid-aligned and inside the playfield, excluding the
wall border and additionally the last interior row and column), and is on
neither the snake body nor an existing target. -/
theorem spawn_result_valid (cfg : Config) (snakePos : List Cell)
    (targets : List Target) (stream : Nat → Cell) (n fuel : Nat) (pos : Cell)
    (hstream : ∀ k, candidateCell cfg (stream k) = true)
    (hres : spawn_target snakePos targets stream n fuel = some pos) :
    candidateCell cfg pos = true ∧ validSpawn snakePos targets pos = true :=
  spawn_target_result_aux cfg snakePos targets stream hstream fuel n pos hres

/-- Witness for C3's amended theorem: a concrete successful spawn. -/
theorem spawn_result_valid_witness :
    candidateCell cfg91 (30, 30) = true ∧ validSpawn [(60, 60)] [] (30, 30) = true :=
  spawn_result_valid cfg91 [(60, 60)] [] constStream 0 1 (30, 30)
    (fun _ => rfl) (by decide)

/-- C4: a reset populates exactly 3 targets of each of the 2 types, and
every update preserves the per-type target counts (each collected target
is removed and replaced by a fresh one of the same type). -/
theorem targets_per_type_invariant :
    (∀ (cfg : Config) (g : Game),
        countType 0 (Game.reset_game cfg g).targets = 3 ∧
        countType 1 (Game.reset_game cfg g).targets = 3) ∧
    (∀ (cfg : Config) (g : Game) (t : Nat),
        countType t (Game.update cfg g).targets = countType t g.targets) := by
  constructor
  · intro cfg g
    exact ⟨rfl, rfl⟩
  · intro cfg g t
    by_cases hs : g.state = GameState.PLAYING
    · simp only [Game.update, hs, if_true]
      by_cases hc : (Snake.tickMove g.snake).check_collision (walls cfg) = true
      · simp only [hc, ite_true]
        split <;> rfl
      · simp only [Bool.not_eq_true] at hc
        simp only [hc, Bool.false_eq_true, ite_false]
        exact (respawnLoop_counts g.spawnStream t _ g.targets g.spawnIdx
          (fun i hi => collectedIndices_lt _ _ i (List.mem_reverse.mp hi))).1
    · simp [Game.update, hs]

/-- C5 counterexample: a readable high-score file with malformed content
makes `_load_high_score` raise ValueError instead of returning 0: only
FileNotFoundError is caught. -/
theorem load_high_score_cex :
    load_high_score (FileRead.content ("abc")) = Except.error PyExc.ValueError ∧
    load_high_score (FileRead.content ("abc")) ≠ Except.ok 0 :=
  ⟨rfl, fun h => Except.noConfusion h⟩

/-- C5 (amended): only an absent file yields a loaded high score of 0; an
unreadable file propagates OSError and malformed content propagates
ValueError. -/
theorem load_high_score_amended :
    load_high_score FileRead.absent = Except.ok 0 ∧
    load_high_score FileRead.unreadable = Except.error PyExc.OSError ∧
    ∀ s : String, pyInt s = none →
      load_high_score (FileRead.content s) = Except.error PyExc.ValueError := by
  refine ⟨rfl, rfl, fun s h => ?_⟩
  simp [load_high_score, h]

/-- Witness for C5's amended theorem at the malformed content "abc". -/
theorem load_high_score_amended_witness :
    pyInt ("abc") = none ∧
    load_high_score (FileRead.content ("abc")) = Except.error PyExc.ValueError :=
  ⟨rfl, load_high_score_amended.2.2 ("abc") rfl⟩

/-- C6: on the game-over tick, the stored high score is overwritten with
the run's score exactly when that score exceeds it, and is unchanged
otherwise (assuming the in-memory copy is in sync with the store, as every
reachable state is). -/
theorem high_score_saved (cfg : Config) (g : Game)
    (hplay : g.state = GameState.PLAYING)
    (hcol : (Snake.tickMove g.snake).check_collision (walls cfg) = true)
    (hsync : g.high_score = g.stored_high) :
    (g.stored_high < g.score → (Game.update cfg g).stored_high = g.score) ∧
    (g.score ≤ g.stored_high → (Game.update cfg g).stored_high = g.stored_high) := by
  simp only [Game.update, hplay, if_true, hcol, ite_true, Game.save_high_score]
  constructor
  · intro hlt
    rw [if_pos (by omega : g.score > g.high_score)]
  · intro hle
    rw [if_neg (by omega : ¬ g.score > g.high_score)]

/-- Witness for C6: score 500 against stored 300 overwrites; score 200
against stored 300 does not. -/
theorem high_score_saved_witness :
    (Game.update cfg600 game500).stored_high = 500 ∧
    (Game.update cfg600 game200).stored_high = 300 :=
  ⟨(high_score_saved cfg600 game500 rfl (by decide) rfl).1 (by decide),
   (high_score_saved cfg600 game200 rfl (by decide) rfl).2 (by decide)⟩

/-- C7: the positions list length equals `length` at construction (for a
positive configured initial length), the bound `len(positions) ≤ length`
is preserved by grow and by move (the excess tail cell being trimmed),
and after at least `length` moves since the last growth the list length
equals `length` exactly. -/
theorem positions_length_invariant (cfg : Config) :
    (1 ≤ cfg.initial_length → ∀ x y : Int,
        (Snake.init cfg x y).positions.length = cfg.initial_length) ∧
    (∀ s : Snake, s.positions.length ≤ s.length →
        (Snake.grow cfg s).positions.length ≤ (Snake.grow cfg s).length) ∧
    (∀ s : Snake, s.positions.length ≤ s.length →
        (Snake.move s).positions.length ≤ (Snake.move s).length) ∧
    (∀ (s : Snake) (m : Nat), s.positions.length ≤ s.length → s.length ≤ m →
        (Snake.move^[m] s).positions.length = s.length) := by
  refine ⟨?_, ?_, ?_, ?_⟩
  · intro h x y
    simp only [Snake.init, List.length_cons, List.length_map, List.length_range]
    omega
  · intro s h
    rw [Snake.grow_positions, Snake.grow_length]
    omega
  · intro s h
    rw [Snake.move_length, Snake.move_positions_length]
    split <;> omega
  · intro s m h hm
    rw [Snake.iterate_move_positions_length m s h]
    omega

/-- Witness for C7: a fresh snake has 3 cells, and a 1-cell snake of
target length 3 reaches exactly 3 cells after 4 moves. -/
theorem positions_length_witness :
    (Snake.init cfg600 450 300).positions.length = cfg600.initial_length ∧
    (Snake.move^[4] snakeW).positions.length = snakeW.length :=
  ⟨(positions_length_invariant cfg600).1 (by decide) 450 300,
   (positions_length_invariant cfg600).2.2.2 snakeW 4 (by decide) (by decide)⟩

/-- C8: across any number of grow() calls, `length` and
`targetsCollected` increase by exactly the number of calls (so never
decrease), `speed` never decreases (for a nonnegative configured step)
and never exceeds the configured maximum once below it, and past the
threshold the clamped speed increase is re-applied on every call. -/
theorem grow_monotonic (cfg : Config) (hstep : 0 ≤ cfg.speed_increase_amount)
    (s : Snake) (n : Nat) :
    ((Snake.grow cfg)^[n] s).length = s.length + n ∧
    ((Snake.grow cfg)^[n] s).targets_collected = s.targets_collected + n ∧
    s.speed ≤ ((Snake.grow cfg)^[n] s).speed ∧
    (s.speed ≤ cfg.max_speed → ((Snake.grow cfg)^[n] s).speed ≤ cfg.max_speed) ∧
    (s.targets_collected + 1 > cfg.targets_before_speedup → s.speed < cfg.max_speed →
      (Snake.grow cfg s).speed = min (s.speed + cfg.speed_increase_amount) cfg.max_speed) := by
  induction n generalizing s with
  | zero =>
      exact ⟨by simp, by simp, by simp, fun h => by simpa using h,
             fun h1 h2 => Snake.grow_speed_reapplied cfg s h1 h2⟩
  | succ n ih =>
      obtain ⟨ihl, iht, ihs, ihc, _⟩ := ih (Snake.grow cfg s)
      refine ⟨?_, ?_, ?_, ?_, fun h1 h2 => Snake.grow_speed_reapplied cfg s h1 h2⟩
      · rw [Function.iterate_succ_apply, ihl, Snake.grow_length]; omega
      · rw [Function.iterate_succ_apply, iht, Snake.grow_targets_collected]; omega
      · rw [Function.iterate_succ_apply]
        exact le_trans (Snake.grow_speed_mono cfg hstep s) ihs
      · intro hc
        rw [Function.iterate_succ_apply]
        exact ihc (Snake.grow_speed_cap cfg s hc)

/-- Witness for C8 after two grow() calls. -/
theorem grow_monotonic_witness :
    ((Snake.grow cfg600)^[2] snakeW).length = snakeW.length + 2 ∧
    snakeW.speed ≤ ((Snake.grow cfg600)^[2] snakeW).speed :=
  ⟨(grow_monotonic cfg600 (by decide) snakeW 2).1,
   (grow_monotonic cfg600 (by decide) snakeW 2).2.2.1⟩

/-- C9: whenever the occupied cells do not exhaust the candidate grid
(some candidate cell is free), the retry loop of the spawner terminates
with a free candidate cell, for any draw stream that stays inside the
candidate set and eventually proposes every candidate cell. -/
theorem spawn_target_terminates (cfg : Config) (snakePos : List Cell)
    (targets : List Target) (stream : Nat → Cell)
    (hstream : ∀ k, candidateCell cfg (stream k) = true)
    (hfair : ∀ c : Cell, candidateCell cfg c = true → ∃ n, stream n = c)
    (hfree : ∃ c : Cell, candidateCell cfg c = true ∧
      validSpawn snakePos targets c = true) :
    ∃ fuel pos, spawn_target snakePos targets stream 0 fuel = some pos ∧
      candidateCell cfg pos = true ∧ validSpawn snakePos targets pos = true := by
  obtain ⟨c, hc, hcv⟩ := hfree
  obtain ⟨n, hn⟩ := hfair c hc
  obtain ⟨pos, hpos⟩ := spawn_target_succeeds_aux snakePos targets stream (n + 1) 0
    ⟨n, by omega, by simpa [hn] using hcv⟩
  exact ⟨n + 1, pos, hpos,
    spawn_target_result_aux cfg snakePos targets stream hstream (n + 1) 0 pos hpos⟩

/-- Witness for C9 on the one-candidate grid of `cfg91` with one occupied
snake cell elsewhere. -/
theorem spawn_target_terminates_witness :
    ∃ fuel pos, spawn_target [(60, 60)] [] constStream 0 fuel = some pos ∧
      candidateCell cfg91 pos = true ∧ validSpawn [(60, 60)] [] pos = true :=
  spawn_target_terminates cfg91 [(60, 60)] [] constStream
    (fun _ => rfl)
    (fun c hc => by
      have hw : cfg91.width = 91 := rfl
      have hh : cfg91.height = 91 := rfl
      simp only [candidateCell, decide_eq_true_eq] at hc
      obtain ⟨h1, h2, h3, h4, h5, h6⟩ := hc
      refine ⟨0, ?_⟩
      show ((30 : Int), (30 : Int)) = c
      have e1 : c.1 = 30 := by omega
      have e2 : c.2 = 30 := by omega
      rw [Prod.ext_iff]
      exact ⟨e1.symm, e2.symm⟩)
    ⟨(30, 30), by decide, by decide⟩

/-- C10: in the MENU and GAME_OVER states, update() leaves the entire
game state — snake, targets, score, high score, stored high score, spawn
bookkeeping and the state itself — exactly unchanged. -/
theorem update_noop_outside_playing (cfg : Config) (g : Game)
    (h : g.state = GameState.MENU ∨ g.state = GameState.GAME_OVER) :
    Game.update cfg g = g := by
  have hne : ¬ g.state = GameState.PLAYING := by
    rcases h with h | h <;> simp [h]
  simp [Game.update, hne]

/-- Witness for C10: a concrete menu-state game is untouched. -/
theorem update_noop_witness : Game.update cfg600 gameMenu = gameMenu :=
  update_noop_outside_playing cfg600 gameMenu (Or.inl rfl)

end SnakeAttack
